import Mathlib

/-!
Verification of the geometry-preparation and label-placement pipeline of the
workforce-maps repository (src/app.py and src/shrink.py).

The program composes operations of an external GIS stack (geopandas /
shapely / matplotlib / adjustText).  We embed the repository's own code
shallowly: a geometry is a finite set of integer grid points together with a
geometry-type tag, a GeoDataFrame is a list of typed rows together with a CRS
code, and the external library primitives (coordinate reprojection, area,
centroid, the geometry type produced by an intersection, the adjustText
engine) are abstract parameters bundled in a `GeoLib` structure, so every
theorem below holds for every behaviour of the external stack.  The
repository's functions (`clean_geoms`, the `gpd.clip` call pattern, the
region filter, the area attribute, the display filter, the label stage of the
static export, and shrink.py's Texas filter) are translated line by line.
-/

/-- A point of the plane, at the granularity of the model's grid. -/
abbrev Pt := Int × Int

/-- A shapely geometry: its set of points and its geometry type tag
(`"Polygon"`, `"MultiPolygon"`, `"LineString"`, ...). -/
structure Geometry where
  points : Finset Pt
  gtype : String
deriving DecidableEq

/-- Shapely's `is_empty` predicate on a geometry. -/
def Geometry.is_empty (g : Geometry) : Bool :=
  decide (g.points = ∅)

/-- The external GIS stack, abstracted: the repository only composes these
primitives, so every theorem is proved for an arbitrary `GeoLib`. -/
structure GeoLib where
  /-- Pointwise coordinate reprojection from one EPSG code to another. -/
  proj : Nat → Nat → Pt → Pt
  /-- The geometry-type tag shapely gives to the intersection of a geometry
  with a mask (a polygon/polygon intersection may be a polygon, a line, a
  point or a collection: this is exactly the clip artifact `clean_geoms`
  removes). -/
  interType : Geometry → Finset Pt → String
  /-- Planar area of a geometry, in the square units of its CRS. -/
  area : Geometry → ℚ
  /-- Centroid of a geometry, as an (x, y) pair. -/
  centroid : Geometry → ℚ × ℚ

/-- A GeoDataFrame: a CRS code and a list of rows. -/
structure Layer (α : Type) where
  crs : Nat
  rows : List α
deriving DecidableEq

/-- Row types that carry a geometry column (every GeoDataFrame row does). -/
class HasGeom (α : Type) where
  geom : α → Geometry
  setGeom : α → Geometry → α
  geom_set : ∀ r g, geom (setGeom r g) = g

/-- Reprojection of a single geometry between two EPSG codes. -/
def projGeom (L : GeoLib) (a b : Nat) (g : Geometry) : Geometry :=
  ⟨g.points.image (L.proj a b), g.gtype⟩

/-- `GeoDataFrame.to_crs(epsg=…)`: reproject every row's geometry from the
layer's CRS to the target CRS. -/
def Layer.to_crs {α : Type} [HasGeom α] (L : GeoLib) (layer : Layer α) (epsg : Nat) : Layer α :=
  ⟨epsg, layer.rows.map fun r => HasGeom.setGeom r (projGeom L layer.crs epsg (HasGeom.geom r))⟩

/-- src/app.py lines 26-31:

    def clean_geoms(gdf):
        if gdf is None or gdf.empty:
            return gdf
        gdf = gdf[~gdf.is_empty]
        gdf = gdf[gdf.geometry.type.isin(['Polygon', 'MultiPolygon'])]
        return gdf

`None` is modelled by `Option.none`. -/
def clean_geoms {α : Type} [HasGeom α] : Option (Layer α) → Option (Layer α)
  | none => none
  | some l =>
    if l.rows.isEmpty then some l
    else
      let l1 : Layer α := ⟨l.crs, l.rows.filter fun r => !(HasGeom.geom r).is_empty⟩
      let l2 : Layer α :=
        ⟨l1.crs, l1.rows.filter fun r =>
          decide ((HasGeom.geom r).gtype ∈ (["Polygon", "MultiPolygon"] : List String))⟩
      some l2

/-- Union of all mask geometries: `gpd.clip` clips against the unary union of
the mask GeoDataFrame's geometry column. -/
def maskUnion {β : Type} [HasGeom β] (mask : Layer β) : Finset Pt :=
  mask.rows.foldr (fun r acc => (HasGeom.geom r).points ∪ acc) ∅

/-- `gpd.clip(gdf, mask)`: keep the rows whose geometry intersects the mask
union and replace each kept geometry by its intersection with the mask union
(attribute columns are untouched); the geometry type of the intersection is
whatever shapely computes (`L.interType`). -/
def gpd_clip {α β : Type} [HasGeom α] [HasGeom β] (L : GeoLib) (gdf : Layer α)
    (mask : Layer β) : Layer α :=
  let m := maskUnion mask
  ⟨gdf.crs,
    (gdf.rows.filter fun r => decide (((HasGeom.geom r).points ∩ m) ≠ ∅)).map fun r =>
      HasGeom.setGeom r ⟨(HasGeom.geom r).points ∩ m, L.interType (HasGeom.geom r) m⟩⟩

/-- A row of the counties layer (texas_counties.shp). -/
structure CountyRow where
  NAME : String
  STATEFP : String
  geom : Geometry
deriving DecidableEq

instance : HasGeom CountyRow where
  geom := CountyRow.geom
  setGeom := fun r g => { r with geom := g }
  geom_set := fun _ _ => rfl

/-- A row of the places layer (Cities.shp) as loaded, before the
`area_sq_mi` column is added; `name` is the value of the city-name column
(`CITY_NM` when present, else `NAME`). -/
structure RawPlaceRow where
  name : String
  geom : Geometry
deriving DecidableEq

instance : HasGeom RawPlaceRow where
  geom := RawPlaceRow.geom
  setGeom := fun r g => { r with geom := g }
  geom_set := fun _ _ => rfl

/-- A places row after line 51 added the `area_sq_mi` column. -/
structure PlaceRow where
  name : String
  geom : Geometry
  area_sq_mi : ℚ
deriving DecidableEq

instance : HasGeom PlaceRow where
  geom := PlaceRow.geom
  setGeom := fun r g => { r with geom := g }
  geom_set := fun _ _ => rfl

/-- A row of the ISD layer (tl_2025_48_unsd.shp). -/
structure ISDRow where
  NAME : String
  geom : Geometry
deriving DecidableEq

instance : HasGeom ISDRow where
  geom := ISDRow.geom
  setGeom := fun r g => { r with geom := g }
  geom_set := fun _ _ => rfl

/-- The constant of src/app.py line 51: 3.86102e-7 square miles per square
meter, as an exact rational. -/
def areaConst : ℚ := 386102 / 10 ^ 12

/-- src/app.py lines 50-51:

    gdf_places = gdf_places.to_crs(epsg=3857)
    gdf_places['area_sq_mi'] = gdf_places.geometry.area * 3.86102e-7
-/
def prepared_places (L : GeoLib) (places : Layer RawPlaceRow) : Layer PlaceRow :=
  let p := Layer.to_crs L places 3857
  ⟨p.crs, p.rows.map fun r => ⟨r.name, r.geom, L.area r.geom * areaConst⟩⟩

/-- src/app.py lines 53-57: the 13 Gulf Coast county names. -/
def target_counties : List String :=
  ["Austin", "Brazoria", "Chambers", "Colorado", "Fort Bend",
   "Galveston", "Harris", "Liberty", "Matagorda", "Montgomery",
   "Walker", "Waller", "Wharton"]

/-- src/app.py lines 58-61:

    region_gdf = gdf_counties[
        (gdf_counties['NAME'].isin(target_counties)) &
        (gdf_counties['STATEFP'] == '48')
    ]
-/
def region_gdf (gdf_counties : Layer CountyRow) : Layer CountyRow :=
  ⟨gdf_counties.crs,
    gdf_counties.rows.filter fun r =>
      decide (r.NAME ∈ target_counties) && decide (r.STATEFP = "48")⟩

/-- src/app.py line 90: `main_gdf = region_gdf` (Gulf Coast mode). -/
def main_gdf (gdf_counties : Layer CountyRow) : Layer CountyRow :=
  region_gdf gdf_counties

/-- src/app.py line 91: `main_gdf_3857 = main_gdf.to_crs(epsg=3857)`. -/
def main_gdf_3857 (L : GeoLib) (gdf_counties : Layer CountyRow) : Layer CountyRow :=
  Layer.to_crs L (main_gdf gdf_counties) 3857

/-- src/app.py line 92 (Gulf Coast mode):
`clipped_cities = clean_geoms(gpd.clip(gdf_places, main_gdf_3857))`. -/
def clipped_cities_gulf (L : GeoLib) (gdf_counties : Layer CountyRow)
    (gdf_places : Layer RawPlaceRow) : Option (Layer PlaceRow) :=
  clean_geoms (some (gpd_clip L (prepared_places L gdf_places) (main_gdf_3857 L gdf_counties)))

/-- src/app.py line 109:
`display_cities = clipped_cities[clipped_cities['area_sq_mi'] >= min_area]`. -/
def display_cities_of (min_area : ℚ) (clipped : Option (Layer PlaceRow)) :
    Option (Layer PlaceRow) :=
  clipped.map fun l => ⟨l.crs, l.rows.filter fun r => decide (r.area_sq_mi ≥ min_area)⟩

/-- The displayed city set of the Gulf Coast mode: lines 89-95 then 109. -/
def display_cities_gulf (L : GeoLib) (gdf_counties : Layer CountyRow)
    (gdf_places : Layer RawPlaceRow) (min_area : ℚ) : Option (Layer PlaceRow) :=
  display_cities_of min_area (clipped_cities_gulf L gdf_counties gdf_places)

/-- src/app.py line 98: `brazoria_gdf = region_gdf[region_gdf['NAME'] == 'Brazoria']`. -/
def brazoria_gdf (gdf_counties : Layer CountyRow) : Layer CountyRow :=
  let r := region_gdf gdf_counties
  ⟨r.crs, r.rows.filter fun row => decide (row.NAME = "Brazoria")⟩

/-- src/app.py line 99: `brazoria_3857 = brazoria_gdf.to_crs(epsg=3857)`. -/
def brazoria_3857 (L : GeoLib) (gdf_counties : Layer CountyRow) : Layer CountyRow :=
  Layer.to_crs L (brazoria_gdf gdf_counties) 3857

/-- src/app.py lines 101-102:
`clipped_isds = clean_geoms(gpd.clip(gdf_isds.to_crs(epsg=3857), brazoria_3857))`. -/
def clipped_isds (L : GeoLib) (gdf_counties : Layer CountyRow)
    (gdf_isds : Layer ISDRow) : Option (Layer ISDRow) :=
  clean_geoms (some (gpd_clip L (Layer.to_crs L gdf_isds 3857) (brazoria_3857 L gdf_counties)))

/-- src/app.py line 103 (Brazoria mode):
`clipped_cities = clean_geoms(gpd.clip(gdf_places, brazoria_3857))`. -/
def clipped_cities_braz (L : GeoLib) (gdf_counties : Layer CountyRow)
    (gdf_places : Layer RawPlaceRow) : Option (Layer PlaceRow) :=
  clean_geoms (some (gpd_clip L (prepared_places L gdf_places) (brazoria_3857 L gdf_counties)))

/-- src/shrink.py row type: a row of the national county file, with its full
attribute table. -/
structure USCountyRow where
  STATEFP : String
  attrs : List (String × String)
  geom : Geometry
deriving DecidableEq

instance : HasGeom USCountyRow where
  geom := USCountyRow.geom
  setGeom := fun r g => { r with geom := g }
  geom_set := fun _ _ => rfl

/-- src/shrink.py line 8: `texas_gdf = gdf[gdf['STATEFP'] == '48']`. -/
def texas_gdf (gdf : Layer USCountyRow) : Layer USCountyRow :=
  ⟨gdf.crs, gdf.rows.filter fun r => decide (r.STATEFP = "48")⟩

/-- A matplotlib text object of the static export: its anchor/current
position and its string. -/
structure TextLabel where
  pos : ℚ × ℚ
  label : String
deriving DecidableEq

/-- src/app.py line 189: shorten ISD names for the static labels. -/
def cleanISDLabel (s : String) : String :=
  (s.replace "Independent School District" "ISD").replace "Consolidated" "Cons."

/-- src/app.py lines 187-192: one text per ISD row, anchored at the
geometry's centroid, with the shortened name. -/
def isd_texts (L : GeoLib) (isds : Layer ISDRow) : List TextLabel :=
  isds.rows.map fun r => ⟨L.centroid r.geom, cleanISDLabel r.NAME⟩

/-- src/app.py lines 203-207: one text per displayed city, anchored at the
geometry's centroid, labelled with the city-name column. -/
def city_texts (L : GeoLib) (cities : Layer PlaceRow) : List TextLabel :=
  cities.rows.map fun r => ⟨L.centroid r.geom, r.name⟩

/-- src/app.py lines 136-144: the interactive map reprojects the displayed
cities to EPSG:4326 and places one CircleMarker per non-empty geometry at
`[centroid.y, centroid.x]`. -/
def circle_marker_locations (L : GeoLib) (display_cities : Layer PlaceRow) :
    List (ℚ × ℚ) :=
  let cities_4326 := Layer.to_crs L display_cities 4326
  (cities_4326.rows.filter fun r => !r.geom.is_empty).map fun r =>
    ((L.centroid r.geom).2, (L.centroid r.geom).1)

/-- src/app.py lines 183-225, the label stage of the static export.
`isd_texts` is assigned (lines 187-192) only under the guard
`display_isds is not None and not display_isds.empty` of line 183, but
line 220 reads it under the weaker guard `display_isds is not None`; the
mismatch is modelled by the Option `isdTextsVar` and surfaces as the
NameError branch.  The external adjustText engine is the abstract
`adjustText` argument; when `use_adjust_text` is false, or `all_texts` is
empty, every text keeps its anchor position. -/
def render_labels (L : GeoLib) (display_isds : Option (Layer ISDRow))
    (display_cities : Layer PlaceRow) (use_adjust_text : Bool)
    (adjustText : List TextLabel → List TextLabel) : Except String (List TextLabel) :=
  let isdTextsVar : Option (List TextLabel) :=
    match display_isds with
    | some l => if l.rows.isEmpty then none else some (isd_texts L l)
    | none => none
  let cityTexts := city_texts L display_cities
  if use_adjust_text then
    match display_isds with
    | none =>
      if cityTexts.isEmpty then Except.ok cityTexts
      else Except.ok (adjustText cityTexts)
    | some _ =>
      match isdTextsVar with
      | none => Except.error "NameError: name isd_texts is not defined"
      | some its =>
        let allTexts := cityTexts ++ its
        if allTexts.isEmpty then Except.ok allTexts
        else Except.ok (adjustText allTexts)
  else Except.ok (cityTexts ++ isdTextsVar.getD [])

/-- The displayed-cities pipeline of the Gulf Coast mode, written out from
the words of the specification sentence (claim C1): reproject the places
layer to EPSG:3857, clip it to the 13-county region itself reprojected to
EPSG:3857, sanitize the clip result with clean_geoms, keep the rows with
area_sq_mi at least min_area.  Compared against `display_cities_gulf`,
which follows the code. -/
def specGulfDisplay (L : GeoLib) (gdf_counties : Layer CountyRow)
    (gdf_places : Layer RawPlaceRow) (min_area : ℚ) : Option (Layer PlaceRow) :=
  let placesProj := prepared_places L gdf_places
  let regionProj := Layer.to_crs L (region_gdf gdf_counties) 3857
  let clipped := gpd_clip L placesProj regionProj
  let cleaned := clean_geoms (some clipped)
  cleaned.map fun l => ⟨l.crs, l.rows.filter fun r => decide (r.area_sq_mi ≥ min_area)⟩

/-- A concrete instantiation of the external GIS stack, used to exhibit
witnesses: reprojection is the identity, intersections keep the left
type tag, area counts grid points, centroids sit at the origin. -/
def idLib : GeoLib where
  proj := fun _ _ p => p
  interType := fun g _ => g.gtype
  area := fun g => (g.points.card : ℚ)
  centroid := fun _ => ((0 : ℚ), (0 : ℚ))

/-- A one-point square polygon used by the witnesses. -/
def unitPoly : Geometry := ⟨{(0, 0)}, "Polygon"⟩

/-- A one-county layer (Harris, Texas) used by the witnesses. -/
def counties0 : Layer CountyRow := ⟨4269, [⟨"Harris", "48", unitPoly⟩]⟩

/-- A one-city raw places layer used by the witnesses. -/
def places0 : Layer RawPlaceRow := ⟨4326, [⟨"Houston", unitPoly⟩]⟩

/-- The prepared row that `prepared_places idLib places0` produces. -/
def place0 : PlaceRow :=
  ⟨"Houston", projGeom idLib 4326 3857 unitPoly,
    idLib.area (projGeom idLib 4326 3857 unitPoly) * areaConst⟩

/-- A one-city prepared layer used by the witnesses. -/
def cityLayer0 : Layer PlaceRow := ⟨3857, [place0]⟩

/-- An ISD row used by the witnesses. -/
def isdRow0 : ISDRow := ⟨"Alvin Independent School District", unitPoly⟩

/-- A one-row ISD layer used by the witnesses. -/
def isdLayer0 : Layer ISDRow := ⟨3857, [isdRow0]⟩

/-- A one-county mask layer in EPSG:3857 used by the witnesses. -/
def mask0 : Layer CountyRow := ⟨3857, [⟨"Harris", "48", unitPoly⟩]⟩

/-- The row that `gpd_clip idLib cityLayer0 mask0` produces. -/
def clipPlace0 : PlaceRow :=
  HasGeom.setGeom place0
    ⟨(HasGeom.geom place0).points ∩ maskUnion mask0,
      idLib.interType (HasGeom.geom place0) (maskUnion mask0)⟩

/-- A two-row national county layer used by the shrink.py witness. -/
def usa0 : Layer USCountyRow :=
  ⟨4269, [⟨"48", [("NAME", "Harris")], unitPoly⟩, ⟨"06", [("NAME", "Alameda")], unitPoly⟩]⟩

/-- The city text that `city_texts idLib cityLayer0` produces. -/
def cityText0 : TextLabel := ⟨idLib.centroid place0.geom, place0.name⟩

/-- The ISD text that `isd_texts idLib isdLayer0` produces. -/
def isdText0 : TextLabel := ⟨idLib.centroid isdRow0.geom, cleanISDLabel isdRow0.NAME⟩

/-- The marker location that `circle_marker_locations idLib cityLayer0`
produces. -/
def markerLoc0 : ℚ × ℚ := ((0 : ℚ), (0 : ℚ))

/-- The mask union of the Gulf Coast pipeline at the witness inputs. -/
def gulfMask0 : Finset Pt := maskUnion (main_gdf_3857 idLib counties0)

/-- The row that the Gulf Coast clip produces at the witness inputs. -/
def gulfClipRow0 : PlaceRow :=
  HasGeom.setGeom place0
    ⟨(HasGeom.geom place0).points ∩ gulfMask0,
      idLib.interType (HasGeom.geom place0) gulfMask0⟩

/-- The displayed city layer of the Gulf Coast mode at the witness inputs. -/
def dispLayer0 : Layer PlaceRow := ⟨3857, [gulfClipRow0]⟩

/-- Helper: the rows of a `clean_geoms` result are rows of its input. -/
theorem clean_geoms_rows_mem {α : Type} [HasGeom α] (l l' : Layer α)
    (h : clean_geoms (some l) = some l') (r : α) (hr : r ∈ l'.rows) : r ∈ l.rows := by
  by_cases he : l.rows.isEmpty
  · simp only [clean_geoms, he, if_true] at h
    obtain rfl := Option.some.inj h
    exact hr
  · simp only [clean_geoms, he, if_false] at h
    obtain rfl := Option.some.inj h
    exact List.mem_of_mem_filter (List.mem_of_mem_filter hr)

/-- Helper: every row of `prepared_places` carries as `area_sq_mi` the area
of its own (EPSG:3857) geometry scaled by the constant of line 51. -/
theorem prepared_places_area_attr (L : GeoLib) (places : Layer RawPlaceRow)
    (r : PlaceRow) (hr : r ∈ (prepared_places L places).rows) :
    r.area_sq_mi = L.area r.geom * areaConst := by
  simp only [prepared_places, Layer.to_crs, List.map_map, List.mem_map] at hr
  obtain ⟨r0, _, rfl⟩ := hr
  rfl

/-- Claim C1: in the Gulf Coast map mode, the displayed city set equals the
result of reprojecting the places layer to EPSG:3857, clipping it to the
13-county region itself reprojected to EPSG:3857, sanitizing the clip result
with clean_geoms, and keeping exactly the rows with area_sq_mi ≥ min_area. -/
theorem gulf_display_is_spec_pipeline (L : GeoLib) (gdf_counties : Layer CountyRow)
    (gdf_places : Layer RawPlaceRow) (min_area : ℚ) :
    display_cities_gulf L gdf_counties gdf_places min_area =
      specGulfDisplay L gdf_counties gdf_places min_area := rfl

/-- Claim C2: on a GeoDataFrame that is neither None nor empty, clean_geoms
returns exactly the rows whose geometry is non-empty and of type Polygon or
MultiPolygon (a filter of the original rows, so no geometry is modified and
no other row appears), with the CRS unchanged. -/
theorem clean_geoms_nonempty_spec {α : Type} [HasGeom α] (l : Layer α)
    (h : l.rows ≠ []) :
    clean_geoms (some l) =
      some ⟨l.crs, l.rows.filter fun r =>
        decide ((HasGeom.geom r).points ≠ ∅) &&
        decide ((HasGeom.geom r).gtype = "Polygon" ∨
          (HasGeom.geom r).gtype = "MultiPolygon")⟩ := by
  have he : l.rows.isEmpty = false := by
    simpa [List.isEmpty_iff] using h
  simp only [clean_geoms, he, Bool.false_eq_true, if_false]
  rw [List.filter_filter]
  refine congrArg some (congrArg (Layer.mk l.crs) ?_)
  apply List.filter_congr
  intro r _
  have h1 : (!(HasGeom.geom r).is_empty) = decide ((HasGeom.geom r).points ≠ ∅) := by
    simp [Geometry.is_empty, decide_not]
  have h2 : decide ((HasGeom.geom r).gtype ∈ (["Polygon", "MultiPolygon"] : List String)) =
      decide ((HasGeom.geom r).gtype = "Polygon" ∨ (HasGeom.geom r).gtype = "MultiPolygon") := by
    apply decide_eq_decide.mpr
    simp
  rw [h1, h2, Bool.and_comm]

/-- Witness for C2 at a concrete one-row layer. -/
theorem clean_geoms_nonempty_spec_w :
    cityLayer0.rows ≠ [] ∧
    clean_geoms (some cityLayer0) =
      some ⟨cityLayer0.crs, cityLayer0.rows.filter fun r =>
        decide ((HasGeom.geom r).points ≠ ∅) &&
        decide ((HasGeom.geom r).gtype = "Polygon" ∨
          (HasGeom.geom r).gtype = "MultiPolygon")⟩ :=
  ⟨by decide, clean_geoms_nonempty_spec cityLayer0 (by decide)⟩

/-- Claim C10: clean_geoms is total on the degenerate inputs: None maps to
None, and an empty GeoDataFrame is returned unchanged. -/
theorem clean_geoms_degenerate_spec {α : Type} [HasGeom α] (l : Layer α)
    (h : l.rows = []) :
    clean_geoms (α := α) none = none ∧ clean_geoms (some l) = some l := by
  refine ⟨rfl, ?_⟩
  simp [clean_geoms, h]

/-- Witness for C10 at the empty places layer. -/
theorem clean_geoms_degenerate_spec_w :
    (⟨3857, []⟩ : Layer PlaceRow).rows = [] ∧
    (clean_geoms (α := PlaceRow) none = none ∧
      clean_geoms (some (⟨3857, []⟩ : Layer PlaceRow)) = some ⟨3857, []⟩) :=
  ⟨rfl, clean_geoms_degenerate_spec ⟨3857, []⟩ rfl⟩

/-- Claim C3: every row of the places layer carries, as its derived
area_sq_mi attribute, the area of its geometry in the projected EPSG:3857
coordinate system multiplied by the constant 3.86102e-7. -/
theorem area_sq_mi_spec (L : GeoLib) (places : Layer RawPlaceRow) (r : PlaceRow)
    (hr : r ∈ (prepared_places L places).rows) :
    r.area_sq_mi = L.area r.geom * (386102 / 10 ^ 12 : ℚ) ∧
      (prepared_places L places).crs = 3857 :=
  ⟨prepared_places_area_attr L places r hr, rfl⟩

/-- Witness for C3 at a concrete one-row places layer. -/
theorem area_sq_mi_spec_w :
    place0 ∈ (prepared_places idLib places0).rows ∧
    (place0.area_sq_mi = idLib.area place0.geom * (386102 / 10 ^ 12 : ℚ) ∧
      (prepared_places idLib places0).crs = 3857) :=
  ⟨List.Mem.head _, area_sq_mi_spec idLib places0 place0 (List.Mem.head _)⟩

/-- Claim C4: every geometry produced by the clip operation is contained in
the intersection of the corresponding original geometry with the boundary
region (the union of the mask geometries); in particular it does not extend
outside the boundary region. -/
theorem clip_subset_spec {α β : Type} [HasGeom α] [HasGeom β] (L : GeoLib)
    (gdf : Layer α) (mask : Layer β) (r' : α)
    (h : r' ∈ (gpd_clip L gdf mask).rows) :
    ∃ r ∈ gdf.rows,
      (HasGeom.geom r').points ⊆ (HasGeom.geom r).points ∩ maskUnion mask ∧
      (HasGeom.geom r').points ⊆ maskUnion mask := by
  simp only [gpd_clip, List.mem_map, List.mem_filter] at h
  obtain ⟨r, ⟨hr, _⟩, rfl⟩ := h
  rw [HasGeom.geom_set]
  exact ⟨r, hr, Finset.Subset.refl _, Finset.inter_subset_right⟩

/-- Witness for C4 at a concrete clip of one city against one county. -/
theorem clip_subset_spec_w :
    ∃ r ∈ cityLayer0.rows,
      (HasGeom.geom clipPlace0).points ⊆ (HasGeom.geom r).points ∩ maskUnion mask0 ∧
      (HasGeom.geom clipPlace0).points ⊆ maskUnion mask0 :=
  clip_subset_spec idLib cityLayer0 mask0 clipPlace0 (List.Mem.head _)

/-- Claim C5: region_gdf holds exactly the county rows whose NAME is one of
the 13 Gulf Coast county names and whose STATEFP is '48'. -/
theorem region_gdf_spec (gdf_counties : Layer CountyRow) (r : CountyRow) :
    r ∈ (region_gdf gdf_counties).rows ↔
      (r ∈ gdf_counties.rows ∧
        r.NAME ∈ (["Austin", "Brazoria", "Chambers", "Colorado", "Fort Bend",
          "Galveston", "Harris", "Liberty", "Matagorda", "Montgomery",
          "Walker", "Waller", "Wharton"] : List String) ∧
        r.STATEFP = "48") := by
  simp [region_gdf, List.mem_filter, target_counties, and_assoc]

/-- Witness for C5 at a concrete one-county layer. -/
theorem region_gdf_spec_w :
    (⟨"Harris", "48", unitPoly⟩ : CountyRow) ∈ (region_gdf counties0).rows ↔
      ((⟨"Harris", "48", unitPoly⟩ : CountyRow) ∈ counties0.rows ∧
        (⟨"Harris", "48", unitPoly⟩ : CountyRow).NAME ∈
          (["Austin", "Brazoria", "Chambers", "Colorado", "Fort Bend",
            "Galveston", "Harris", "Liberty", "Matagorda", "Montgomery",
            "Walker", "Waller", "Wharton"] : List String) ∧
        (⟨"Harris", "48", unitPoly⟩ : CountyRow).STATEFP = "48") :=
  region_gdf_spec counties0 ⟨"Harris", "48", unitPoly⟩

/-- Claim C6 (code bug at src/app.py line 220): with the auto-adjust option
enabled, at least one city label and a present-but-empty ISD layer, the
label stage of the static export raises NameError instead of repositioning
the labels: isd_texts is assigned only under the guard of line 183
(display_isds not None AND not empty) but read at line 220 under the weaker
guard (display_isds not None). -/
theorem adjust_labels_nameerror :
    render_labels idLib (some (⟨3857, []⟩ : Layer ISDRow)) cityLayer0 true (fun ts => ts) =
      Except.error "NameError: name isd_texts is not defined" := rfl

/-- Claim C7: every interactive-map city marker sits at (centroid.y,
centroid.x) of the city's (EPSG:4326) geometry, every static city label is
anchored at the centroid of the city's geometry, and every static ISD label
is anchored at the centroid of the ISD's geometry. -/
theorem label_anchor_spec (L : GeoLib) (cities : Layer PlaceRow) (isds : Layer ISDRow)
    (t u : TextLabel) (loc : ℚ × ℚ)
    (ht : t ∈ city_texts L cities) (hu : u ∈ isd_texts L isds)
    (hloc : loc ∈ circle_marker_locations L cities) :
    (∃ r ∈ cities.rows, t.pos = L.centroid r.geom ∧ t.label = r.name) ∧
    (∃ s ∈ isds.rows, u.pos = L.centroid s.geom ∧ u.label = cleanISDLabel s.NAME) ∧
    (∃ q ∈ (Layer.to_crs L cities 4326).rows,
      loc = ((L.centroid q.geom).2, (L.centroid q.geom).1)) := by
  refine ⟨?_, ?_, ?_⟩
  · simp only [city_texts, List.mem_map] at ht
    obtain ⟨r, hr, rfl⟩ := ht
    exact ⟨r, hr, rfl, rfl⟩
  · simp only [isd_texts, List.mem_map] at hu
    obtain ⟨s, hs, rfl⟩ := hu
    exact ⟨s, hs, rfl, rfl⟩
  · simp only [circle_marker_locations, List.mem_map, List.mem_filter] at hloc
    obtain ⟨q, ⟨hq, _⟩, rfl⟩ := hloc
    exact ⟨q, hq, rfl⟩

/-- Witness for C7 at a concrete one-city, one-ISD configuration. -/
theorem label_anchor_spec_w :
    (∃ r ∈ cityLayer0.rows, cityText0.pos = idLib.centroid r.geom ∧ cityText0.label = r.name) ∧
    (∃ s ∈ isdLayer0.rows, isdText0.pos = idLib.centroid s.geom ∧
      isdText0.label = cleanISDLabel s.NAME) ∧
    (∃ q ∈ (Layer.to_crs idLib cityLayer0 4326).rows,
      markerLoc0 = ((idLib.centroid q.geom).2, (idLib.centroid q.geom).1)) :=
  label_anchor_spec idLib cityLayer0 isdLayer0 cityText0 isdText0 markerLoc0
    (List.Mem.head _) (List.Mem.head _) (List.Mem.head _)

/-- Claim C8: shrink.py's output holds exactly the rows of the national
county file whose STATEFP is '48', each row (attributes and geometry)
unchanged and in the original order. -/
theorem texas_gdf_spec (gdf : Layer USCountyRow) :
    (∀ r : USCountyRow, r ∈ (texas_gdf gdf).rows ↔ (r ∈ gdf.rows ∧ r.STATEFP = "48")) ∧
    (texas_gdf gdf).rows.Sublist gdf.rows ∧ (texas_gdf gdf).crs = gdf.crs := by
  refine ⟨fun r => ?_, List.filter_sublist _, rfl⟩
  simp [texas_gdf, List.mem_filter]

/-- Claim C9: the area value the minimum-area filter consults is the
attribute computed from the full pre-clip geometry, untouched by the clip:
every displayed Gulf Coast city row carries the area_sq_mi of a
pre-clip places row of the same name, and the filter compared min_area
against that pre-clip value. -/
theorem clip_preserves_area_spec (L : GeoLib) (gdf_counties : Layer CountyRow)
    (gdf_places : Layer RawPlaceRow) (min_area : ℚ) (l : Layer PlaceRow)
    (hl : display_cities_gulf L gdf_counties gdf_places min_area = some l)
    (r' : PlaceRow) (hr : r' ∈ l.rows) :
    ∃ r ∈ (prepared_places L gdf_places).rows,
      r'.name = r.name ∧ r'.area_sq_mi = r.area_sq_mi ∧
      r.area_sq_mi = L.area r.geom * areaConst ∧ min_area ≤ r'.area_sq_mi := by
  rcases hcc : clipped_cities_gulf L gdf_counties gdf_places with _ | lc
  · exact absurd hl (by simp [display_cities_gulf, display_cities_of, hcc])
  · have hl' : l = ⟨lc.crs, lc.rows.filter fun r => decide (r.area_sq_mi ≥ min_area)⟩ := by
      have h0 := hl
      simp only [display_cities_gulf, display_cities_of, hcc, Option.map_some'] at h0
      exact (Option.some.inj h0).symm
    subst hl'
    rw [List.mem_filter] at hr
    obtain ⟨hr1, hr2⟩ := hr
    have hmin : min_area ≤ r'.area_sq_mi := of_decide_eq_true hr2
    unfold clipped_cities_gulf at hcc
    have hr3 := clean_geoms_rows_mem _ lc hcc r' hr1
    simp only [gpd_clip, List.mem_map, List.mem_filter] at hr3
    obtain ⟨r, ⟨hrp, _⟩, rfl⟩ := hr3
    exact ⟨r, hrp, rfl, rfl, prepared_places_area_attr L gdf_places r hrp, hmin⟩

/-- Witness for C9 at a concrete run of the Gulf Coast pipeline. -/
theorem clip_preserves_area_spec_w :
    ∃ r ∈ (prepared_places idLib places0).rows,
      gulfClipRow0.name = r.name ∧ gulfClipRow0.area_sq_mi = r.area_sq_mi ∧
      r.area_sq_mi = idLib.area r.geom * areaConst ∧ (0 : ℚ) ≤ gulfClipRow0.area_sq_mi :=
  clip_preserves_area_spec idLib counties0 places0 0 dispLayer0
    (by
      have h1 : clipped_cities_gulf idLib counties0 places0 =
          some (⟨3857, [gulfClipRow0]⟩ : Layer PlaceRow) := rfl
      have h2 : (0 : ℚ) ≤ gulfClipRow0.area_sq_mi := by
        have h3 : gulfClipRow0.area_sq_mi =
            ((unitPoly.points.image (idLib.proj 4326 3857)).card : ℚ) * areaConst := rfl
        rw [h3]
        exact mul_nonneg (Nat.cast_nonneg _) (by norm_num [areaConst])
      show display_cities_of 0 (clipped_cities_gulf idLib counties0 places0) = some dispLayer0
      rw [h1]
      simp only [display_cities_of, Option.map_some']
      have h2' : gulfClipRow0.area_sq_mi ≥ (0 : ℚ) := h2
      rw [List.filter_singleton, decide_eq_true h2', cond_true]
      rfl
    )
    gulfClipRow0 (List.Mem.head _)
